import Mathlib

/-!
Verification development for the partition validation, resize and relocation
engine of the `ittoolkit` repository (Rust sources under `src-tauri/src`).

The Rust code is shallowly embedded: `u64` values become `Nat` with explicit
`% 2 ^ 64` wherever the source performs unchecked (wrapping) additions, and
`Nat` truncated subtraction wherever the source uses `saturating_sub`.
Floating-point computations of the source (`f64`/`f32`) are modelled exactly:
IEEE-754 binary64 operations are round-to-nearest-even onto the 53-bit
dyadic grid, implemented below on dyadic rationals with pure `Nat`
arithmetic.  External command invocations (diskpart/parted/e2fsck/resize2fs/
robocopy/rsync) are modelled by oracle environments supplying each command's
outcome, and the orchestrators additionally return the trace of driver calls
they issued and the stream of progress records they emitted.
-/

/-- Partition table type (from `partition/types.rs`, shape visible in the
`validation.rs` tests). -/
inductive PartitionTableType where
  | MBR | GPT | Unknown
deriving DecidableEq, Repr

/-- Partition type (from `partition/types.rs`). -/
inductive PartitionType where
  | Primary | Logical | Normal
deriving DecidableEq, Repr

/-- Filesystem kind (from `partition/types.rs`). -/
inductive FilesystemType where
  | NTFS | FAT32 | ExFAT | Ext2 | Ext3 | Ext4 | APFS | HFSPlus | RAW | Unknown
deriving DecidableEq, Repr

/-- Modelled from the spec: `partition/types.rs` is not among the provided
sources; the spec gives each filesystem "an associated *supports-resize*
capability".  The capability table is reconstructed from the spec together
with the dispatch of `expand_filesystem` in `resize/expand.rs` (NTFS,
Ext2/3/4, APFS and HFS+ have resize implementations; the remaining kinds
fall into the "not supported" branch) and the in-repo test
`test_validate_expand_basic`, which expects an NTFS expansion to validate. -/
def FilesystemType.supports_resize : FilesystemType → Bool
  | .NTFS | .Ext2 | .Ext3 | .Ext4 | .APFS | .HFSPlus => true
  | .FAT32 | .ExFAT | .RAW | .Unknown => false

/-- Modelled from the spec: display name of a filesystem kind, used in
validation error messages (`partition/types.rs` is not among the sources). -/
def FilesystemType.display_name : FilesystemType → String
  | .NTFS => "NTFS"
  | .FAT32 => "FAT32"
  | .ExFAT => "exFAT"
  | .Ext2 => "ext2"
  | .Ext3 => "ext3"
  | .Ext4 => "ext4"
  | .APFS => "APFS"
  | .HFSPlus => "HFS+"
  | .RAW => "RAW"
  | .Unknown => "Unknown"

/-- Partition flags (from `partition/types.rs`; `Boot` and `System` are the
ones the engine inspects). -/
inductive PartitionFlag where
  | Boot | System | Hidden
deriving DecidableEq, Repr

/-- Disk status (from `partition/types.rs`, shape visible in the
`validation.rs` tests). -/
structure DiskStatus where
  is_online : Bool
  has_errors : Bool
  smart_status : Option String
deriving DecidableEq, Repr

/-- `PartitionInfo` (from `partition/types.rs`, shape visible in the
`validation.rs` tests).  `u64` fields are embedded as `Nat`. -/
structure PartitionInfo where
  id : String
  number : Nat
  device_path : String
  label : Option String
  start_offset : Nat
  total_size : Nat
  used_space : Option Nat
  partition_type : PartitionType
  filesystem : FilesystemType
  mount_point : Option String
  is_mounted : Bool
  flags : List PartitionFlag
deriving DecidableEq, Repr

/-- `DiskInfo` (from `partition/types.rs`, shape visible in the
`validation.rs` tests). -/
structure DiskInfo where
  id : String
  device_path : String
  model : String
  total_size : Nat
  table_type : PartitionTableType
  partitions : List PartitionInfo
  serial_number : Option String
  status : DiskStatus
deriving DecidableEq, Repr

/-- `ValidationResult` (from `resize/validation.rs`). -/
structure ValidationResult where
  is_valid : Bool
  errors : List String
  warnings : List String
  safe_size : Option Nat
  minimum_size : Option Nat
  maximum_size : Option Nat
  has_adjacent_space : Bool
  adjacent_space : Nat
deriving DecidableEq, Repr

/-- Modulus of Rust's `u64` arithmetic. -/
def u64Mod : Nat := 2 ^ 64

/-! ## Exact model of the IEEE-754 binary64 computations of the source

`validate_shrink` computes `(used_space as f64 * 1.2) as u64` and
`format_bytes` divides by powers of 1024 before printing with two decimals.
We model binary64 values as dyadic rationals `a / 2 ^ s` and rounding as
round-to-nearest, ties-to-even, which is exactly the IEEE-754 default mode
used by Rust. -/

/-- Round `a / 2 ^ t` to the nearest integer, ties to even. -/
def rneShift (a t : Nat) : Nat :=
  let q := a / 2 ^ t
  let r := a % 2 ^ t
  if 2 * r < 2 ^ t then q
  else if 2 ^ t < 2 * r then q + 1
  else if q % 2 = 0 then q else q + 1

/-- Round `a / b` to the nearest integer, ties to even. -/
def rneDiv (a b : Nat) : Nat :=
  let q := a / b
  let r := a % b
  if 2 * r < b then q
  else if b < 2 * r then q + 1
  else if q % 2 = 0 then q else q + 1

/-- Floor of the base-2 logarithm, by structural recursion on a fuel
argument so that it evaluates by plain reduction; 256 units of fuel cover
every magnitude occurring in this development.  Agrees with `Nat.log2` for
positive inputs below `2 ^ fuel` (and returns 0 at 0, like `Nat.log2`). -/
def floorLog2Fuel : Nat → Nat → Nat
  | 0, _ => 0
  | fuel + 1, n => if 2 ≤ n then floorLog2Fuel fuel (n / 2) + 1 else 0

/-- Floor of the base-2 logarithm of the numbers this development
manipulates. -/
def floorLog2 (n : Nat) : Nat := floorLog2Fuel 256 n

/-- Round the dyadic rational `a / 2 ^ s` to the nearest binary64 value
(round-to-nearest, ties-to-even), returned again as a dyadic pair
`(m, s')` denoting `m / 2 ^ s'`.  Valid for the magnitudes occurring in the
program (far below binary64 overflow, no subnormals). -/
def roundDyadicF64 (a s : Nat) : Nat × Nat :=
  let k := floorLog2 a
  if k ≤ 52 then (a, s)
  else
    let t := k - 52
    let m := rneShift a t
    if t ≤ s then (m, s - t) else (m * 2 ^ (t - s), 0)

/-- The binary64 value of the Rust literal `1.2`, as a dyadic rational:
`round_f64(1.2) = 5404319552844595 / 2 ^ 52`. -/
def f64Lit1_2 : Nat × Nat := (5404319552844595, 52)

/-- `(used_space as f64 * 1.2) as u64` from `validate_shrink`
(`resize/validation.rs`): the `u64` is converted to binary64 (rounded if it
exceeds 53 bits), multiplied by the binary64 constant `1.2` with the result
rounded to binary64 again, then truncated toward zero. -/
def min_safe_size (u : Nat) : Nat :=
  let p := roundDyadicF64 u 0
  let q := roundDyadicF64 (p.1 * f64Lit1_2.1) (p.2 + f64Lit1_2.2)
  q.1 / 2 ^ q.2

/-! ## `format_bytes` (duplicated in `move_partition.rs` and
`resize/validation.rs`)

The source computes `exp = floor(log_1024(bytes))` and prints
`bytes / 1024^exp` with two decimals (`{:.2}`).  The model computes the
hundredths by correctly-rounded division; this agrees with the Rust output
at every byte count evaluated in this development (where the binary64
division is exact). -/

/-- Two-digit zero-padded rendering of `n < 100`. -/
def pad2 (n : Nat) : String :=
  if n < 10 then "0" ++ toString n else toString n

/-- The unit suffix table of `format_bytes`. -/
def byteUnits : List String := ["B", "KB", "MB", "GB", "TB"]

/-- `format_bytes` from the source: human-readable byte count with two
decimal places. -/
def format_bytes (bytes : Nat) : String :=
  if bytes = 0 then "0 B"
  else
    let exp := min (floorLog2 bytes / 10) 4
    let h := rneDiv (bytes * 100) (1024 ^ exp)
    toString (h / 100) ++ "." ++ pad2 (h % 100) ++ " " ++
      (byteUnits.getD exp "B")

/-- The apostrophe character, used inside some source message strings. -/
def apos : String := String.mk [Char.ofNat 39]

/-- Boolean substring test: `needle` occurs contiguously inside `hay`. -/
def strMentions (hay needle : String) : Bool :=
  decide (needle.data <:+: hay.data)

/-- Boolean test that a list of percents is non-decreasing. -/
def sortedLe : List Nat → Bool
  | [] => true
  | [_] => true
  | a :: b :: t => decide (a ≤ b) && sortedLe (b :: t)

/-! ## Validation engine (`resize/validation.rs`, `move_partition.rs`) -/

/-- Error text of check 1 of `validate_expand`. -/
def expandTooSmallMsg (target total : Nat) : String :=
  "Target size (" ++ format_bytes target ++
    ") must be larger than current size (" ++ format_bytes total ++ ")"

/-- Error text of check 3 of `validate_expand`. -/
def expandNotEnoughMsg (increase available : Nat) : String :=
  "Not enough adjacent space. Requested increase: " ++ format_bytes increase ++
    ", Available: " ++ format_bytes available

/-- Error text of the filesystem-capability check shared by `validate_expand`
and `validate_shrink`. -/
def fsNoResizeMsg (fs : FilesystemType) : String :=
  "Filesystem type " ++ apos ++ fs.display_name ++ apos ++
    " does not support resize operations"

/-- `find_next_partition` (`resize/validation.rs`): the partition with the
smallest `start_offset` at or beyond the current partition's end (the first
such partition wins ties, as Rust's `min_by_key` keeps the first minimum).
The end is computed with `u64` (wrapping) addition. -/
def find_next_partition (disk : DiskInfo) (current : PartitionInfo) :
    Option PartitionInfo :=
  let current_end := (current.start_offset + current.total_size) % u64Mod
  (disk.partitions.filter (fun p => current_end ≤ p.start_offset)).foldl
    (fun acc p =>
      match acc with
      | none => some p
      | some m => if p.start_offset < m.start_offset then some p else acc)
    none

/-- The `available_space` computation of check 2 of `validate_expand`
(`resize/validation.rs`): the gap between the partition's end (`u64`
addition) and the next partition's start, or the disk end when there is no
next partition, both with `saturating_sub`. -/
def expandAvailable (partition : PartitionInfo) (disk : DiskInfo) : Nat :=
  let partition_end := (partition.start_offset + partition.total_size) % u64Mod
  match find_next_partition disk partition with
  | some next => next.start_offset - partition_end
  | none => disk.total_size - partition_end

/-- `validate_expand` (`resize/validation.rs`).  Mirrors the source
statement by statement; the sequential mutations of `result` become record
updates. -/
def validate_expand (partition : PartitionInfo) (disk : DiskInfo)
    (target_size : Nat) : ValidationResult :=
  let result : ValidationResult :=
    { is_valid := true
      errors := []
      warnings := []
      safe_size := some target_size
      minimum_size := some partition.total_size
      maximum_size := none
      has_adjacent_space := false
      adjacent_space := 0 }
  -- Check 1: target size must be larger than current size (early return)
  if target_size ≤ partition.total_size then
    { result with
      is_valid := false
      errors := result.errors ++
        [expandTooSmallMsg target_size partition.total_size] }
  else
    -- Check 2: available space after this partition
    let available_space := expandAvailable partition disk
    let r2 := { result with
      adjacent_space := available_space
      has_adjacent_space := decide (0 < available_space) }
    -- Check 3: enough adjacent space for the requested increase
    let size_increase := target_size - partition.total_size
    let r3 :=
      if available_space < size_increase then
        { r2 with
          is_valid := false
          errors := r2.errors ++ [expandNotEnoughMsg size_increase available_space] }
      else r2
    -- maximum safe size (u64 addition)
    let r4 := { r3 with
      maximum_size := some ((partition.total_size + available_space) % u64Mod) }
    -- Check 4: mounted partitions only warn
    let r5 :=
      if partition.is_mounted then
        { r4 with warnings := r4.warnings ++
            ["Partition is currently mounted. Expansion may require unmounting or system restart."] }
      else r4
    -- Check 5: filesystem capability
    if partition.filesystem.supports_resize then r5
    else
      { r5 with
        is_valid := false
        errors := r5.errors ++ [fsNoResizeMsg partition.filesystem] }

/-- Error text of check 1 of `validate_shrink`. -/
def shrinkTooBigMsg (target total : Nat) : String :=
  "Target size (" ++ format_bytes target ++
    ") must be smaller than current size (" ++ format_bytes total ++ ")"

/-- Error text of check 2 of `validate_shrink`. -/
def shrinkTooSmallMsg (target used minSafe : Nat) : String :=
  "Target size (" ++ format_bytes target ++ ") is too small. Used space: " ++
    format_bytes used ++ ", Minimum safe size: " ++ format_bytes minSafe

/-- `validate_shrink` (`resize/validation.rs`).  Check 4 (mounted-partition
warning) is compiled only on non-Windows targets; the model follows the
Linux/macOS build.  The warning affects no error or validity field. -/
def validate_shrink (partition : PartitionInfo) (target_size : Nat) :
    ValidationResult :=
  let result : ValidationResult :=
    { is_valid := true
      errors := []
      warnings := []
      safe_size := some target_size
      minimum_size := none
      maximum_size := some partition.total_size
      has_adjacent_space := false
      adjacent_space := 0 }
  -- Check 1: target size must be smaller than current size (early return)
  if partition.total_size ≤ target_size then
    { result with
      is_valid := false
      errors := result.errors ++
        [shrinkTooBigMsg target_size partition.total_size] }
  else
    -- Check 2: target size versus used space (with 20% f64 safety factor)
    let r2 :=
      match partition.used_space with
      | some used_space =>
        let min_safe := min_safe_size used_space
        let r := { result with minimum_size := some min_safe }
        if target_size < min_safe then
          { r with
            is_valid := false
            errors := r.errors ++ [shrinkTooSmallMsg target_size used_space min_safe] }
        else if target_size < (used_space + 100 * 1024 * 1024) % u64Mod then
          { r with warnings := r.warnings ++
              ["Target size leaves less than 100MB free space. This is not recommended."] }
        else r
      | none =>
        { result with warnings := result.warnings ++
            ["Cannot determine used space. Shrink operation may fail if target size is too small."] }
    -- Check 3: filesystem capability
    let r3 :=
      if partition.filesystem.supports_resize then r2
      else
        { r2 with
          is_valid := false
          errors := r2.errors ++ [fsNoResizeMsg partition.filesystem] }
    -- Check 4: mounted partition warning (non-Windows builds)
    let r4 :=
      if partition.is_mounted then
        { r3 with warnings := r3.warnings ++
            ["This partition is mounted. You may need to unmount it before shrinking on this OS."] }
      else r3
    -- Check 5: boot partition warning
    let r5 :=
      if partition.flags.contains .Boot then
        { r4 with warnings := r4.warnings ++
            ["WARNING: This is a boot partition. Shrinking it may make the system unbootable!"] }
      else r4
    -- Check 6: system partition warning
    if partition.flags.contains .System then
      { r5 with warnings := r5.warnings ++
          ["WARNING: This is a system partition. Shrinking it requires extreme caution!"] }
    else r5

/-- The fresh result `validate_move` starts from (`move_partition.rs`). -/
def moveInitResult (partition : PartitionInfo) : ValidationResult :=
  { is_valid := true
    errors := []
    warnings := []
    safe_size := some partition.total_size
    minimum_size := none
    maximum_size := none
    has_adjacent_space := false
    adjacent_space := 0 }

/-- Error text of check 1 of `validate_move` (disk bounds). -/
def moveBoundsMsg (disk : DiskInfo) (partition : PartitionInfo)
    (target_offset : Nat) : String :=
  "Target location is outside disk bounds. Disk size: " ++
    format_bytes disk.total_size ++ ", Required: " ++
    format_bytes ((target_offset + partition.total_size) % u64Mod)

/-- The early-return result of `validate_move` when the target extends past
the disk end. -/
def moveBoundsFailResult (disk : DiskInfo) (partition : PartitionInfo)
    (target_offset : Nat) : ValidationResult :=
  { moveInitResult partition with
    is_valid := false
    errors := [moveBoundsMsg disk partition target_offset] }

/-- The three-disjunct overlap test of check 2 of `validate_move`, with the
`u64` (wrapping) additions of the source: the target offset falls inside the
other partition, the moved end falls inside the other partition, or the
moved interval contains the other partition. -/
def moveOverlapCond (target_offset : Nat) (partition other : PartitionInfo) :
    Bool :=
  let other_start := other.start_offset
  let other_end := (other.start_offset + other.total_size) % u64Mod
  let target_end := (target_offset + partition.total_size) % u64Mod
  (other_start ≤ target_offset && target_offset < other_end) ||
    (other_start < target_end && target_end ≤ other_end) ||
    (target_offset ≤ other_start && other_end ≤ target_end)

/-- Error text of check 2 of `validate_move` (overlap), which names the
conflicting partition by its device path. -/
def moveOverlapMsg (other : PartitionInfo) : String :=
  ("Target location overlaps with partition " ++ apos) ++ other.device_path ++
    (apos ++ " at offset " ++ format_bytes other.start_offset)

/-- Check 2 of `validate_move`: the loop over `disk.partitions`, skipping
the moved partition by id and accumulating one overlap error per
conflicting partition. -/
def moveOverlapFold (partition : PartitionInfo) (target_offset : Nat)
    (l : List PartitionInfo) (r : ValidationResult) : ValidationResult :=
  l.foldl
    (fun acc other =>
      if other.id = partition.id then acc
      else if moveOverlapCond target_offset partition other then
        { acc with
          is_valid := false
          errors := acc.errors ++ [moveOverlapMsg other] }
      else acc)
    r

/-- Checks 3-5 of `validate_move`: mount-state handling, boot/system
warnings and the backup-space warning. -/
def moveChecksTail (partition : PartitionInfo) (r : ValidationResult) :
    ValidationResult :=
  -- Check 3: partition must be unmounted for safety
  let r3 :=
    if partition.is_mounted then
      let ra := { r with warnings := r.warnings ++
        ["Partition is currently mounted. It must be unmounted before moving."] }
      if partition.flags.contains .System || partition.flags.contains .Boot then
        { ra with
          is_valid := false
          errors := ra.errors ++
            ["Cannot move system or boot partition while it" ++ apos ++ "s mounted."] }
      else ra
    else r
  -- Check 4: boot/system warnings
  let r4 :=
    if partition.flags.contains .Boot then
      { r3 with warnings := r3.warnings ++
          ["WARNING: This is a boot partition. Moving it may make the system unbootable!"] }
    else r3
  let r5 :=
    if partition.flags.contains .System then
      { r4 with warnings := r4.warnings ++
          ["WARNING: This is a system partition. Moving it requires extreme caution!"] }
    else r4
  -- Check 5: backup-space warning (always emitted)
  { r5 with warnings := r5.warnings ++
      ["Moving requires temporary backup space of approximately " ++
        format_bytes partition.total_size ++
        ". Ensure you have enough free disk space."] }

/-- Checks 2-5 of `validate_move`, i.e. everything after the disk-bounds
check passed. -/
def moveChecksAfterBounds (partition : PartitionInfo) (disk : DiskInfo)
    (target_offset : Nat) : ValidationResult :=
  moveChecksTail partition
    (moveOverlapFold partition target_offset disk.partitions
      (moveInitResult partition))

/-- `validate_move` (`move_partition.rs`): the disk-bounds check (with the
`u64` wrapping addition of the source) returns early; otherwise checks 2-5
run. -/
def validate_move (partition : PartitionInfo) (disk : DiskInfo)
    (target_offset : Nat) : ValidationResult :=
  if disk.total_size < (target_offset + partition.total_size) % u64Mod then
    moveBoundsFailResult disk partition target_offset
  else
    moveChecksAfterBounds partition disk target_offset

/-! ## Move orchestrator (`move_partition.rs`)

`move_partition` is an async workflow driving external tools; the model
makes the outcome of each external step an oracle field of `MoveEnv` and
returns both the list of progress records handed to the callback and the
final `Result`.  The backup/create/restore steps follow the
`target_os = "windows"` branches, the only platform on which the source can
complete the whole pipeline (`create_partition_at_offset` errors out
elsewhere); the phase structure and every emitted percent are identical on
the other platforms' backup/restore paths. -/

/-- `MovePhase` (`move_partition.rs`). -/
inductive MovePhase where
  | Validating | BackingUp | DeletingOldPartition | CreatingNewPartition
  | RestoringData | Verifying | Complete | Error
deriving DecidableEq, Repr

/-- `MoveProgress` (`move_partition.rs`).  `percent` is an `f32` in the
source; it is embedded as `Nat`, which is exact here because every percent
the program ever computes is a whole number: the constants 0, 40, 50, 100,
and the `restoring_data`/`verifying` mappings applied to the only copy
percents the source emits (the literals `0.0` and `100.0`), at which the
binary32 arithmetic `50.0 + p * 0.4` / `90.0 + p * 0.1` yields exactly 50,
90, 90 and 100. -/
structure MoveProgress where
  phase : MovePhase
  percent : Nat
  message : String
  bytes_processed : Nat
  total_bytes : Nat
  can_cancel : Bool
deriving DecidableEq, Repr

/-- `{:.1}` rendering of the percents interpolated into progress messages
(exact at the whole-number values the source emits). -/
def fmtPercent1 (n : Nat) : String :=
  toString n ++ ".0"

/-- `MoveProgress::validating`. -/
def MoveProgress.validating (message : String) : MoveProgress :=
  { phase := .Validating, percent := 0, message := message,
    bytes_processed := 0, total_bytes := 0, can_cancel := true }

/-- `MoveProgress::backing_up` — note that the raw copy percent (0-100) is
stored unchanged in `percent`. -/
def MoveProgress.backing_up (percent : Nat) (bytes_processed total_bytes : Nat) :
    MoveProgress :=
  { phase := .BackingUp, percent := percent,
    message := "Backing up partition data... " ++ fmtPercent1 percent ++ "%",
    bytes_processed := bytes_processed, total_bytes := total_bytes,
    can_cancel := true }

/-- `MoveProgress::deleting_partition` (fixed 40%). -/
def MoveProgress.deleting_partition (message : String) : MoveProgress :=
  { phase := .DeletingOldPartition, percent := 40, message := message,
    bytes_processed := 0, total_bytes := 0, can_cancel := false }

/-- `MoveProgress::creating_partition` (fixed 50%). -/
def MoveProgress.creating_partition (message : String) : MoveProgress :=
  { phase := .CreatingNewPartition, percent := 50, message := message,
    bytes_processed := 0, total_bytes := 0, can_cancel := false }

/-- `MoveProgress::restoring_data` (mapped to 50-90%). -/
def MoveProgress.restoring_data (percent : Nat) (bytes_processed total_bytes : Nat) :
    MoveProgress :=
  { phase := .RestoringData, percent := 50 + percent * 2 / 5,
    message := "Restoring partition data... " ++ fmtPercent1 percent ++ "%",
    bytes_processed := bytes_processed, total_bytes := total_bytes,
    can_cancel := false }

/-- `MoveProgress::verifying` (mapped to 90-100%). -/
def MoveProgress.verifying (percent : Nat) : MoveProgress :=
  { phase := .Verifying, percent := 90 + percent / 10,
    message := "Verifying data integrity... " ++ fmtPercent1 percent ++ "%",
    bytes_processed := 0, total_bytes := 0, can_cancel := false }

/-- `MoveProgress::complete`. -/
def MoveProgress.complete (message : String) : MoveProgress :=
  { phase := .Complete, percent := 100, message := message,
    bytes_processed := 0, total_bytes := 0, can_cancel := false }

/-- `MovePartitionOptions` (`move_partition.rs`); `PathBuf` is embedded as
`String`. -/
structure MovePartitionOptions where
  target_offset : Nat
  verify_after_move : Bool
  backup_path : Option String
deriving DecidableEq, Repr

/-- Oracle environment for one `move_partition` run: the process temp
directory and the outcome of each external step.  A `.error s` outcome
carries the already-formatted error message the corresponding source
function builds from the tool's exit state (e.g. `Robocopy failed with exit
code 8: ...`); directory creation (`create_dir_all`) outcomes are included
because the source propagates their failures with `?` as well. -/
structure MoveEnv where
  temp_dir : String
  mkdir_backup : Except String Unit
  backup_copy : Except String Unit
  delete_res : Except String Unit
  create_res : Except String Unit
  mkdir_restore : Except String Unit
  restore_copy : Except String Unit
deriving Repr

/-- `move_partition` (`move_partition.rs`): validate, back up, delete,
create, restore, optionally verify, complete.  Returns the emitted progress
records and the final result.  The `Ok(false)` returns of
`backup_partition_data`/`restore_partition_data` are dead in the source
(every platform implementation returns `Ok(true)` or `Err`), so the
`anyhow!("Failed to backup/restore partition data")` branches guarded by
them are unreachable and the model propagates the step errors directly. -/
def move_partition (partition : PartitionInfo) (disk : DiskInfo)
    (options : MovePartitionOptions) (env : MoveEnv) :
    List MoveProgress × Except String Unit :=
  let ev0 := [MoveProgress.validating "Validating move operation..."]
  let validation := validate_move partition disk options.target_offset
  if validation.is_valid = false then
    (ev0, .error ("Move validation failed: " ++
      String.intercalate ", " validation.errors))
  else
    let ev1 := ev0 ++ [MoveProgress.validating "Preparing backup location..."]
    -- backup_path defaults to temp_dir/partition_backup_{number}
    let _backup_path := options.backup_path.getD
      (env.temp_dir ++ "/partition_backup_" ++ toString partition.number)
    -- backup_partition_data: create_dir_all, then the platform copy
    match env.mkdir_backup with
    | .error e => (ev1, .error e)
    | .ok _ =>
      match partition.mount_point with
      | none => (ev1, .error "Partition must have a mount point")
      | some _ =>
        let ev2 := ev1 ++ [MoveProgress.backing_up 0 0 partition.total_size]
        match env.backup_copy with
        | .error e => (ev2, .error e)
        | .ok _ =>
          let ev3 := ev2 ++
            [MoveProgress.backing_up 100 partition.total_size partition.total_size]
          -- Step 2: delete old partition
          let ev4 := ev3 ++
            [MoveProgress.deleting_partition "Deleting old partition..."]
          match env.delete_res with
          | .error e => (ev4, .error e)
          | .ok _ =>
            -- Step 3: create new partition at the target offset
            let ev5 := ev4 ++
              [MoveProgress.creating_partition "Creating partition at new location..."]
            match env.create_res with
            | .error e => (ev5, .error e)
            | .ok _ =>
              -- the Windows implementation returns the original info with
              -- the start offset updated
              let new_partition :=
                { partition with start_offset := options.target_offset }
              -- Step 4: restore data (emits 50% first, then the copy)
              let ev6 := ev5 ++
                [MoveProgress.restoring_data 0 0 new_partition.total_size]
              match env.mkdir_restore with
              | .error e => (ev6, .error e)
              | .ok _ =>
                match new_partition.mount_point with
                | none =>
                  (ev6, .error "Target partition must be mounted to restore data")
                | some _ =>
                  match env.restore_copy with
                  | .error e => (ev6, .error e)
                  | .ok _ =>
                    let ev7 := ev6 ++
                      [MoveProgress.restoring_data 100 new_partition.total_size
                        new_partition.total_size]
                    -- Step 5: optional verification (a stub in the source)
                    let ev8 :=
                      if options.verify_after_move then
                        ev7 ++ [MoveProgress.verifying 0]
                      else ev7
                    (ev8 ++ [MoveProgress.complete "Partition moved successfully!"],
                      .ok ())

/-! ## Resize orchestrator (`resize/expand.rs`, `resize/shrink.rs`)

The orchestrators dispatch at compile time on the target OS; the model
follows the `target_os = "linux"` build, recording every external tool
invocation in a trace so that theorems can speak about which driver calls
were (not) made. -/

/-- One external tool invocation issued by the resize orchestrators. -/
inductive DriverCall where
  | parted_resizepart (base_device part_num : String) (size_mb : Nat)
  | resize2fs_grow (device : String)
  | ntfsresize_dry (device : String)
  | ntfsresize_grow (device : String)
  | e2fsck_force (device : String)
  | resize2fs_shrink (device : String) (size_arg : String)
deriving DecidableEq, Repr

/-- Oracle environment for one resize run: each field is the outcome of the
corresponding external command, a `.error s` carrying the tool's stderr
text. -/
structure ResizeEnv where
  parted_res : Except String Unit
  resize2fs_res : Except String Unit
  ntfs_dry_res : Except String Unit
  ntfs_res : Except String Unit
  e2fsck_res : Except String Unit
deriving Repr

/-- The partition-number suffix extraction of `expand_partition_table_linux`
and `delete_partition_linux`: the maximal numeric suffix of the device
path. -/
def partNumSuffix (device : String) : String :=
  String.mk (((device.data.reverse.takeWhile fun c => c.isDigit)).reverse)

/-- Rust's `str::trim_end_matches`: repeatedly strip the given suffix.  A
fuel argument (the string length) bounds the recursion. -/
def trimEndMatchesAux (l pat : List Char) : Nat → List Char
  | 0 => l
  | fuel + 1 =>
    if pat ≠ [] && pat.isSuffixOf l then
      trimEndMatchesAux (l.take (l.length - pat.length)) pat fuel
    else l

/-- `str::trim_end_matches` on strings. -/
def trimEndMatches (s pat : String) : String :=
  String.mk (trimEndMatchesAux s.data pat.data s.data.length)

/-- `expand_partition_table_linux` (`resize/expand.rs`): derive the base
device and partition number from the device path and invoke
`parted <base> resizepart <num> <target_mb>MB`. -/
def expand_partition_table_linux (partition : PartitionInfo)
    (target_size : Nat) (env : ResizeEnv) :
    List DriverCall × Except String Unit :=
  let size_mb := target_size / (1024 * 1024)
  let part_num := partNumSuffix partition.device_path
  let base_device := trimEndMatches partition.device_path part_num
  let calls := [DriverCall.parted_resizepart base_device part_num size_mb]
  match env.parted_res with
  | .error e => (calls, .error ("parted failed: " ++ e))
  | .ok _ => (calls, .ok ())

/-- `expand_filesystem` (`resize/expand.rs`) on the Linux build: dispatch on
the filesystem kind.  NTFS runs a dry-run `ntfsresize` and then the real
one; the ext family runs `resize2fs`; APFS/HFS+ are macOS-only; everything
else is unsupported. -/
def expand_filesystem_linux (partition : PartitionInfo) (env : ResizeEnv) :
    List DriverCall × Except String Unit :=
  match partition.filesystem with
  | .NTFS =>
    let c1 := [DriverCall.ntfsresize_dry partition.device_path]
    match env.ntfs_dry_res with
    | .error e => (c1, .error ("NTFS dry-run failed: " ++ e))
    | .ok _ =>
      let c2 := c1 ++ [DriverCall.ntfsresize_grow partition.device_path]
      match env.ntfs_res with
      | .error e => (c2, .error ("NTFS resize failed: " ++ e))
      | .ok _ => (c2, .ok ())
  | .Ext2 | .Ext3 | .Ext4 =>
    let c1 := [DriverCall.resize2fs_grow partition.device_path]
    match env.resize2fs_res with
    | .error e => (c1, .error ("resize2fs failed: " ++ e))
    | .ok _ => (c1, .ok ())
  | .APFS | .HFSPlus =>
    ([], .error "APFS/HFS+ resize is only supported on macOS")
  | fs =>
    ([], .error ("Filesystem expansion not supported for " ++ fs.display_name))

/-- `expand_partition` (`resize/expand.rs`) on the Linux build: extend the
partition-table entry, then expand the filesystem.  No validation function
is invoked anywhere on this path. -/
def expand_partition (partition : PartitionInfo) (target_size : Nat)
    (env : ResizeEnv) : List DriverCall × Except String Unit :=
  let (c1, r1) := expand_partition_table_linux partition target_size env
  match r1 with
  | .error e => (c1, .error e)
  | .ok _ =>
    let (c2, r2) := expand_filesystem_linux partition env
    (c1 ++ c2, r2)

/-- `shrink_linux` (`resize/shrink.rs`): refuse mounted partitions before
any driver call, run a forced `e2fsck` and abort on its failure, then run
`resize2fs` with the target expressed in 4096-byte blocks (suffixed `s`).
The partition-table update is an acknowledged gap in the source. -/
def shrink_linux (partition : PartitionInfo) (target_size : Nat)
    (env : ResizeEnv) : List DriverCall × Except String Unit :=
  if partition.is_mounted then
    ([], .error "Partition must be unmounted before shrinking")
  else
    let c1 := [DriverCall.e2fsck_force partition.device_path]
    match env.e2fsck_res with
    | .error e => (c1, .error ("Filesystem check failed: " ++ e))
    | .ok _ =>
      let target_blocks := target_size / 4096
      let c2 := c1 ++
        [DriverCall.resize2fs_shrink partition.device_path
          (toString target_blocks ++ "s")]
      match env.resize2fs_res with
      | .error e => (c2, .error ("resize2fs failed: " ++ e))
      | .ok _ => (c2, .ok ())

/-- `shrink_partition` (`resize/shrink.rs`) on the Linux build simply
delegates to `shrink_linux`; like `expand_partition`, it invokes no
validation function. -/
def shrink_partition (partition : PartitionInfo) (target_size : Nat)
    (env : ResizeEnv) : List DriverCall × Except String Unit :=
  shrink_linux partition target_size env

/-! ## Concrete fixtures used by counterexamples and witnesses -/

/-- Whole gibibytes in bytes. -/
def gib (n : Nat) : Nat := n * 1024 * 1024 * 1024

/-- Default disk status used by the fixtures. -/
def okStatus : DiskStatus :=
  { is_online := true, has_errors := false, smart_status := none }

/-- A 100 GiB NTFS partition with 80 GiB used (the shrink scenario of the
spec). -/
def fixP80 : PartitionInfo :=
  { id := "shrink-1", number := 1, device_path := "C:", label := none,
    start_offset := 1024 * 1024, total_size := gib 100,
    used_space := some (gib 80), partition_type := .Primary,
    filesystem := .NTFS, mount_point := some "C:", is_mounted := false,
    flags := [] }

/-- A tiny partition with 6 bytes used out of 100. -/
def fixP6 : PartitionInfo :=
  { fixP80 with id := "shrink-6", used_space := some 6, total_size := 100 }

/-- A partition starting at offset 10, size 100, on a 500-byte disk with no
further partitions. -/
def fixPA : PartitionInfo :=
  { id := "exp-a", number := 1, device_path := "/dev/sda1", label := none,
    start_offset := 10, total_size := 100, used_space := some 40,
    partition_type := .Primary, filesystem := .NTFS, mount_point := none,
    is_mounted := false, flags := [] }

/-- The 500-byte disk holding only `fixPA`. -/
def fixDA : DiskInfo :=
  { id := "disk-a", device_path := "/dev/sda", model := "T", total_size := 500,
    table_type := .GPT, partitions := [fixPA], serial_number := none,
    status := okStatus }

/-- The partition being moved in the move counterexample: 60 bytes at
offset 0. -/
def fixPMove : PartitionInfo :=
  { id := "p1", number := 1, device_path := "/dev/sda1", label := none,
    start_offset := 0, total_size := 60, used_space := none,
    partition_type := .Primary, filesystem := .NTFS, mount_point := none,
    is_mounted := false, flags := [] }

/-- The other partition occupying `[50, 100)` on the 100-byte disk. -/
def fixQ2 : PartitionInfo :=
  { id := "q2", number := 2, device_path := "/dev/sdz9", label := none,
    start_offset := 50, total_size := 50, used_space := none,
    partition_type := .Primary, filesystem := .NTFS, mount_point := none,
    is_mounted := false, flags := [] }

/-- The 100-byte disk holding `fixPMove` and `fixQ2`. -/
def fixDC : DiskInfo :=
  { id := "disk-c", device_path := "/dev/sda", model := "T", total_size := 100,
    table_type := .GPT, partitions := [fixPMove, fixQ2],
    serial_number := none, status := okStatus }

/-- A partition whose size is within 8 bytes of `u64::MAX`, on a 100-byte
disk: moving it to offset 16 wraps the bounds check. -/
def fixPBig : PartitionInfo :=
  { id := "big", number := 1, device_path := "/dev/sdb1", label := none,
    start_offset := 0, total_size := 2 ^ 64 - 8, used_space := none,
    partition_type := .Primary, filesystem := .NTFS, mount_point := none,
    is_mounted := false, flags := [] }

/-- The 100-byte disk holding `fixPBig`. -/
def fixDTiny : DiskInfo :=
  { id := "disk-t", device_path := "/dev/sdb", model := "T", total_size := 100,
    table_type := .GPT, partitions := [fixPBig], serial_number := none,
    status := okStatus }

/-- An overflow-free out-of-bounds move fixture: 60 bytes moved to offset
50 on a 100-byte disk with no other partitions. -/
def fixPW : PartitionInfo :=
  { fixPMove with id := "pw", device_path := "/dev/sdc1" }

/-- The 100-byte disk holding only `fixPW`. -/
def fixDW : DiskInfo :=
  { fixDC with id := "disk-w", partitions := [fixPW] }

/-- An invariant-violating snapshot: a 200-byte partition on a 100-byte
disk. -/
def fixPX : PartitionInfo :=
  { id := "px", number := 1, device_path := "/dev/sdd1", label := none,
    start_offset := 0, total_size := 200, used_space := none,
    partition_type := .Primary, filesystem := .Ext4, mount_point := none,
    is_mounted := false, flags := [] }

/-- A garbage partition starting beyond both the disk end and `fixPX`'s
end. -/
def fixQFar : PartitionInfo :=
  { fixPX with
      id := "qfar"
      device_path := "/dev/sdd2"
      start_offset := 250
      total_size := 10 }

/-- The doubly-corrupt 100-byte disk holding `fixPX` and `fixQFar`. -/
def fixDX : DiskInfo :=
  { id := "disk-x", device_path := "/dev/sdd", model := "T", total_size := 100,
    table_type := .GPT, partitions := [fixPX, fixQFar],
    serial_number := none, status := okStatus }

/-- The corrupt 100-byte disk holding only `fixPX` (no partition at or past
its end). -/
def fixDY : DiskInfo :=
  { fixDX with id := "disk-y", partitions := [fixPX] }

/-- A 10 GiB mounted NTFS partition on a 100 GiB disk, used for full
`move_partition` runs. -/
def fixPWin : PartitionInfo :=
  { id := "part-1", number := 1, device_path := "D:", label := none,
    start_offset := 1024 * 1024, total_size := gib 10,
    used_space := some (gib 4), partition_type := .Primary,
    filesystem := .NTFS, mount_point := some "D:", is_mounted := false,
    flags := [] }

/-- The 100 GiB disk holding `fixPWin`. -/
def fixDWin : DiskInfo :=
  { id := "disk-0", device_path := "disk0", model := "T",
    total_size := gib 100, table_type := .GPT, partitions := [fixPWin],
    serial_number := none, status := okStatus }

/-- Move options: offset 50 GiB, verify afterwards, staging directory
`/tmp/stage`. -/
def fixOpts : MovePartitionOptions :=
  { target_offset := gib 50, verify_after_move := true,
    backup_path := some "/tmp/stage" }

/-- An environment in which every external step succeeds. -/
def fixEnvOk : MoveEnv :=
  { temp_dir := "/tmp", mkdir_backup := .ok (), backup_copy := .ok (),
    delete_res := .ok (), create_res := .ok (), mkdir_restore := .ok (),
    restore_copy := .ok () }

/-- The error message the Windows restore path builds when robocopy exits
with code 8. -/
def restoreFailText : String := "Robocopy restore failed code 8: Access denied"

/-- An environment in which the `RestoringData` copy fails. -/
def fixEnvRestoreFail : MoveEnv :=
  { fixEnvOk with restore_copy := .error restoreFailText }

/-- A 100 GiB ext4 partition used for the resize-orchestrator runs. -/
def fixPExt : PartitionInfo :=
  { id := "p-ext", number := 1, device_path := "/dev/sda1", label := none,
    start_offset := 1024 * 1024, total_size := gib 100,
    used_space := some (gib 80), partition_type := .Primary,
    filesystem := .Ext4, mount_point := some "/data", is_mounted := false,
    flags := [] }

/-- The 500 GiB disk holding `fixPExt`. -/
def fixDExt : DiskInfo :=
  { id := "disk-e", device_path := "/dev/sda", model := "T",
    total_size := gib 500, table_type := .GPT, partitions := [fixPExt],
    serial_number := none, status := okStatus }

/-- A resize environment in which every external command succeeds. -/
def fixREnvOk : ResizeEnv :=
  { parted_res := .ok (), resize2fs_res := .ok (), ntfs_dry_res := .ok (),
    ntfs_res := .ok (), e2fsck_res := .ok () }

/-- A resize environment in which the forced filesystem check fails. -/
def fixREnvFsckFail : ResizeEnv :=
  { fixREnvOk with e2fsck_res := .error "bad superblock" }

/-- A mounted variant of `fixPExt`. -/
def fixPExtMounted : PartitionInfo :=
  { fixPExt with id := "p-ext-m", is_mounted := true }

/-! ## Shared helper lemmas -/

/-- Substring occurrence in a three-part concatenation: the middle part is
mentioned. -/
theorem strMentions_append_middle (a b c : String) :
    strMentions (a ++ b ++ c) b = true := by
  simp only [strMentions, decide_eq_true_iff, String.data_append]
  exact ⟨a.data, c.data, by simp⟩

/-- Substring occurrence in a two-part concatenation: the suffix is
mentioned. -/
theorem strMentions_append_right (a b : String) :
    strMentions (a ++ b) b = true := by
  simp only [strMentions, decide_eq_true_iff, String.data_append]
  exact ⟨a.data, [], by simp⟩

/-- The overlap loop of `validate_move` never clears a failure and never
drops an error message. -/
theorem moveOverlapFold_mono (p : PartitionInfo) (t : Nat)
    (l : List PartitionInfo) (r : ValidationResult) (e : String)
    (hv : r.is_valid = false) (he : e ∈ r.errors) :
    (moveOverlapFold p t l r).is_valid = false ∧
      e ∈ (moveOverlapFold p t l r).errors := by
  induction l generalizing r with
  | nil => exact ⟨hv, he⟩
  | cons a l ih =>
    simp only [moveOverlapFold, List.foldl_cons] at *
    split_ifs with h1 h2
    · exact ih r hv he
    · exact ih _ rfl (by simp [he])
    · exact ih r hv he

/-- The overlap loop of `validate_move` marks the result invalid and
records the overlap error of every conflicting partition it encounters. -/
theorem moveOverlapFold_hits (p : PartitionInfo) (t : Nat)
    (l : List PartitionInfo) (r : ValidationResult) (q : PartitionInfo)
    (hq : q ∈ l) (hid : q.id ≠ p.id)
    (hcond : moveOverlapCond t p q = true) :
    (moveOverlapFold p t l r).is_valid = false ∧
      moveOverlapMsg q ∈ (moveOverlapFold p t l r).errors := by
  induction l generalizing r with
  | nil => cases hq
  | cons a l ih =>
    rcases List.mem_cons.mp hq with rfl | hmem
    · simp only [moveOverlapFold, List.foldl_cons]
      rw [if_neg hid, if_pos hcond]
      exact moveOverlapFold_mono p t l _ _ (by simp) (by simp)
    · simp only [moveOverlapFold, List.foldl_cons]
      split_ifs with h1 h2
      · exact ih _ hmem
      · exact ih _ hmem
      · exact ih _ hmem

/-- Checks 3-5 of `validate_move` never clear a failure and never drop an
error message. -/
theorem moveChecksTail_mono (p : PartitionInfo) (r : ValidationResult)
    (e : String) (hv : r.is_valid = false) (he : e ∈ r.errors) :
    (moveChecksTail p r).is_valid = false ∧
      e ∈ (moveChecksTail p r).errors := by
  simp only [moveChecksTail]
  split_ifs <;> simp_all

/-- With no next partition and a partition end that fits in `u64`, the
available space of `validate_expand` is the gap to the disk end. -/
theorem expandAvailable_of_no_next (p : PartitionInfo) (d : DiskInfo)
    (hnext : find_next_partition d p = none)
    (hwrap : p.start_offset + p.total_size < u64Mod) :
    expandAvailable p d = d.total_size - (p.start_offset + p.total_size) := by
  simp [expandAvailable, hnext, Nat.mod_eq_of_lt hwrap]

/-- When every partition of the disk starts strictly before the current
partition's (wrapped) end, `find_next_partition` finds nothing. -/
theorem find_next_none_of_all_before (d : DiskInfo) (p : PartitionInfo)
    (h : ∀ q ∈ d.partitions,
      q.start_offset < (p.start_offset + p.total_size) % u64Mod) :
    find_next_partition d p = none := by
  have hfilter : d.partitions.filter
      (fun q => (p.start_offset + p.total_size) % u64Mod ≤ q.start_offset) = [] := by
    rw [List.filter_eq_nil_iff]
    intro q hq
    simpa using Nat.not_le.mpr (h q hq)
  simp [find_next_partition, hfilter]

set_option maxRecDepth 10000

/-! ## Claim C1 -/

/-- Claim C1, counterexample: when the moved interval both extends past the
disk end and overlaps another partition (here `fixQ2`, which satisfies the
first of the three overlap conditions at target offset 50), `validate_move`
returns early from the disk-bounds check: the result is invalid, but no
error names the conflicting partition, contradicting the claim that the
error always names it. -/
theorem validate_move_out_of_bounds_overlap_unnamed :
    fixQ2 ∈ fixDC.partitions ∧ fixQ2.id ≠ fixPMove.id ∧
      moveOverlapCond 50 fixPMove fixQ2 = true ∧
      (validate_move fixPMove fixDC 50).is_valid = false ∧
      ∀ e ∈ (validate_move fixPMove fixDC 50).errors,
        strMentions e fixQ2.device_path = false := by
  decide

/-- Claim C1, amended: for every move target that passes the disk-bounds
check (`target_offset + total_size ≤ disk.total_size`), `validate_move`
checks overlap against every other partition `q` (excluding self by id)
and, whenever `q` satisfies any of the three overlap conditions, the result
is invalid and contains an error message naming `q` by its device path. -/
theorem validate_move_overlap_reports_conflict (p : PartitionInfo)
    (d : DiskInfo) (t : Nat) (q : PartitionInfo)
    (hb : t + p.total_size ≤ d.total_size)
    (hd : d.total_size < u64Mod)
    (hq : q ∈ d.partitions) (hid : q.id ≠ p.id)
    (hcond : moveOverlapCond t p q = true) :
    (validate_move p d t).is_valid = false ∧
      moveOverlapMsg q ∈ (validate_move p d t).errors ∧
      strMentions (moveOverlapMsg q) q.device_path = true := by
  have hnb : ¬ (d.total_size < (t + p.total_size) % u64Mod) := by
    rw [Nat.mod_eq_of_lt (by omega : t + p.total_size < u64Mod)]; omega
  rw [validate_move, if_neg hnb]
  have hfold := moveOverlapFold_hits p t d.partitions (moveInitResult p) q hq
    hid hcond
  have htail := moveChecksTail_mono p _ _ hfold.1 hfold.2
  exact ⟨htail.1, htail.2, strMentions_append_middle _ _ _⟩

/-- Claim C1, witness: moving `fixPMove` (60 bytes) to offset 20 on the
100-byte disk `fixDC` stays in bounds, overlaps `fixQ2` (its interval
`[50, 100)` contains the moved end 80), and the result is invalid with an
error mentioning `/dev/sdz9`. -/
theorem validate_move_overlap_reports_conflict_witness :
    (validate_move fixPMove fixDC 20).is_valid = false ∧
      moveOverlapMsg fixQ2 ∈ (validate_move fixPMove fixDC 20).errors ∧
      strMentions (moveOverlapMsg fixQ2) fixQ2.device_path = true :=
  validate_move_overlap_reports_conflict fixPMove fixDC 20 fixQ2
    (by decide) (by decide) (by decide) (by decide) (by decide)

/-! ## Claim C2 -/

/-- Claim C2, counterexample: the minimum-size boundary is computed as
`(used_space as f64 * 1.2) as u64`, which truncates below the exact value
`1.2 × U`.  For `used_space = 6` the binary64 product `6 * 1.2` is
`7.1999999999999992…`, so `min_safe_size 6 = 7`; a shrink of that partition
to target 7 is accepted even though `7 < 1.2 × 6 = 7.2`, contradicting the
claimed strict boundary at `1.2 × U`. -/
theorem validate_shrink_float_boundary_counterexample :
    (validate_shrink fixP6 7).is_valid = true ∧
      fixP6.used_space = some 6 ∧ 7 < fixP6.total_size ∧
      fixP6.filesystem.supports_resize = true ∧
      (7 : ℚ) < (6 : ℚ) * (12 / 10) := by
  refine ⟨by decide, by decide, by decide, by decide, by norm_num⟩

/-- Claim C2, amended: for every shrink request on a partition with known
`used_space = U`, a target below the current size and a resize-capable
filesystem, `validate_shrink` sets `minimum_size = min_safe_size U` (the
binary64 computation `(U as f64 * 1.2) as u64`, equal to `1.2 × U` whenever
that product is exactly representable, as it is at `U = 80 GiB`), the
result is valid exactly when `target ≥ min_safe_size U`, and any rejected
target yields an error message stating the minimum. -/
theorem validate_shrink_min_safe_boundary (p : PartitionInfo) (u target : Nat)
    (hu : p.used_space = some u)
    (ht : target < p.total_size)
    (hfs : p.filesystem.supports_resize = true) :
    (validate_shrink p target).minimum_size = some (min_safe_size u) ∧
      ((validate_shrink p target).is_valid = true ↔ min_safe_size u ≤ target) ∧
      (target < min_safe_size u →
        shrinkTooSmallMsg target u (min_safe_size u) ∈
          (validate_shrink p target).errors ∧
        strMentions (shrinkTooSmallMsg target u (min_safe_size u))
          (format_bytes (min_safe_size u)) = true) := by
  have h1 : ¬ (p.total_size ≤ target) := by omega
  refine ⟨?_, ?_, fun hlt => ⟨?_, strMentions_append_right _ _⟩⟩ <;>
    · simp only [validate_shrink, h1, if_false, hu, hfs, if_true]
      split_ifs <;> simp_all

/-- Claim C2, witness: the spec scenario.  For `used_space = 80 GiB`,
`total_size = 100 GiB`: the minimum is exactly 96 GiB, a 70 GiB target is
invalid with an error whose text names `96.00 GB`, and a 97 GiB target is
valid. -/
theorem validate_shrink_min_safe_boundary_witness :
    (validate_shrink fixP80 (gib 70)).is_valid = false ∧
      (validate_shrink fixP80 (gib 70)).minimum_size = some (gib 96) ∧
      shrinkTooSmallMsg (gib 70) (gib 80) (gib 96) ∈
        (validate_shrink fixP80 (gib 70)).errors ∧
      strMentions (shrinkTooSmallMsg (gib 70) (gib 80) (gib 96))
        "96.00 GB" = true ∧
      (validate_shrink fixP80 (gib 97)).is_valid = true := by
  have hmin : min_safe_size (gib 80) = gib 96 := by decide
  have h70 := validate_shrink_min_safe_boundary fixP80 (gib 80) (gib 70)
    rfl (by decide) rfl
  have h97 := validate_shrink_min_safe_boundary fixP80 (gib 80) (gib 97)
    rfl (by decide) rfl
  have hmem := (h70.2.2 (by rw [hmin]; decide)).1
  rw [hmin] at hmem
  refine ⟨?_, ?_, hmem, by decide, h97.2.1.mpr (by rw [hmin]; decide)⟩
  · exact Bool.eq_false_iff.mpr
      (fun hv => by have := h70.2.1.mp hv; rw [hmin] at this; exact absurd this (by decide))
  · rw [h70.1, hmin]

/-! ## Claim C3 -/

/-- Claim C3, failing-input evaluation: when the `RestoringData` copy fails
(robocopy exit code 8), `move_partition` returns the copy tool's error
unchanged — an ordinary `anyhow` error, not a distinct data-at-risk error —
and the message does not mention the backup staging path `/tmp/stage`,
although the last phase reached was `RestoringData` (the old partition is
already gone). -/
theorem move_partition_restore_failure_error :
    (move_partition fixPWin fixDWin fixOpts fixEnvRestoreFail).2 =
        .error restoreFailText ∧
      fixOpts.backup_path = some "/tmp/stage" ∧
      strMentions restoreFailText "/tmp/stage" = false ∧
      ((move_partition fixPWin fixDWin fixOpts fixEnvRestoreFail).1.map
          (·.phase)).getLast? = some .RestoringData := by
  refine ⟨rfl, rfl, by decide, rfl⟩

/-! ## Claim C4 -/

/-- Claim C4, failing-input evaluation: `expand_partition` and
`shrink_partition` never invoke their validation functions.  On inputs that
`validate_expand`/`validate_shrink` reject (a 50 GiB "expansion" of a
100 GiB partition; a 70 GiB shrink of a partition with 80 GiB used), both
orchestrators still issue their mutating driver calls (`parted resizepart`
plus `resize2fs`, resp. `e2fsck` plus `resize2fs`) and report success,
instead of returning the validation errors and aborting before any
mutation. -/
theorem resize_operations_skip_validation :
    (validate_expand fixPExt fixDExt (gib 50)).is_valid = false ∧
      expand_partition fixPExt (gib 50) fixREnvOk =
        ([DriverCall.parted_resizepart "/dev/sda" "1" 51200,
          DriverCall.resize2fs_grow "/dev/sda1"], .ok ()) ∧
      (validate_shrink fixPExt (gib 70)).is_valid = false ∧
      shrink_partition fixPExt (gib 70) fixREnvOk =
        ([DriverCall.e2fsck_force "/dev/sda1",
          DriverCall.resize2fs_shrink "/dev/sda1" "18350080s"], .ok ()) := by
  refine ⟨by decide, rfl, by decide, rfl⟩

/-! ## Claim C5 -/

/-- Claim C5, counterexample: `fixPA` starts at offset 10 on the 500-byte
disk `fixDA` with no partition after it, yet `validate_expand` computes
`maximum_size = 490 = disk.total_size - start_offset`, not the disk end
`E = 500`, and rejects the target 495 even though `495 ≤ E`. -/
theorem validate_expand_maximum_not_disk_end :
    find_next_partition fixDA fixPA = none ∧
      fixPA.start_offset + fixPA.total_size ≤ fixDA.total_size ∧
      fixPA.filesystem.supports_resize = true ∧
      fixPA.total_size < 495 ∧ 495 ≤ fixDA.total_size ∧
      (validate_expand fixPA fixDA 495).is_valid = false ∧
      (validate_expand fixPA fixDA 450).maximum_size = some 490 ∧
      (validate_expand fixPA fixDA 450).maximum_size ≠ some fixDA.total_size := by
  decide

/-- Claim C5, amended: for a partition with no next partition, a layout
within the disk, and a resize-capable filesystem, `validate_expand`
computes `maximum_size = disk.total_size - start_offset` (the disk end
minus the partition's start, not the disk end itself) and accepts exactly
the targets with `total_size < target ≤ disk.total_size - start_offset`. -/
theorem validate_expand_no_next_partition (p : PartitionInfo) (d : DiskInfo)
    (target : Nat)
    (hnext : find_next_partition d p = none)
    (hinv : p.start_offset + p.total_size ≤ d.total_size)
    (hd : d.total_size < u64Mod)
    (hfs : p.filesystem.supports_resize = true)
    (ht : p.total_size < target) :
    (validate_expand p d target).maximum_size =
        some (d.total_size - p.start_offset) ∧
      ((validate_expand p d target).is_valid = true ↔
        target ≤ d.total_size - p.start_offset) := by
  have h1 : ¬ (target ≤ p.total_size) := by omega
  have hav : expandAvailable p d = d.total_size - (p.start_offset + p.total_size) :=
    expandAvailable_of_no_next p d hnext (by omega)
  have hmax : (p.total_size + (d.total_size - (p.start_offset + p.total_size))) % u64Mod
      = d.total_size - p.start_offset := by
    rw [Nat.mod_eq_of_lt (by omega)]; omega
  simp only [validate_expand, h1, if_false, hav, hfs, if_true, hmax]
  split_ifs with hA hB <;> refine ⟨rfl, ?_⟩ <;>
    simp only [Bool.false_eq_true, false_iff, true_iff] <;> omega

/-- Claim C5, witness: expanding `fixPA` to 300 bytes on `fixDA` is valid
and the returned maximum is `500 - 10 = 490`. -/
theorem validate_expand_no_next_partition_witness :
    (validate_expand fixPA fixDA 300).maximum_size =
        some (fixDA.total_size - fixPA.start_offset) ∧
      (validate_expand fixPA fixDA 300).is_valid = true := by
  have h := validate_expand_no_next_partition fixPA fixDA 300
    (by decide) (by decide) (by decide) (by decide) (by decide)
  exact ⟨h.1, h.2.mpr (by decide)⟩

/-! ## Claim C6 -/

/-- Claim C6, failing-input evaluation: a fully successful `move_partition`
run emits the percent sequence `[0, 0, 0, 100, 40, 50, 50, 90, 90, 100]`:
`MoveProgress::backing_up` stores the raw copy percent, so the `BackingUp`
completion record carries percent 100 — beyond the documented `[0, 40]`
range — before `DeletingOldPartition` emits 40, and the sequence is not
non-decreasing. -/
theorem move_progress_backing_up_exceeds_phase_bound :
    (move_partition fixPWin fixDWin fixOpts fixEnvOk).2 = .ok () ∧
      ((move_partition fixPWin fixDWin fixOpts fixEnvOk).1.map (·.percent)) =
        [0, 0, 0, 100, 40, 50, 50, 90, 90, 100] ∧
      ((move_partition fixPWin fixDWin fixOpts fixEnvOk).1.map (·.phase)) =
        [.Validating, .Validating, .BackingUp, .BackingUp,
          .DeletingOldPartition, .CreatingNewPartition, .RestoringData,
          .RestoringData, .Verifying, .Complete] ∧
      sortedLe
        ((move_partition fixPWin fixDWin fixOpts fixEnvOk).1.map (·.percent)) =
        false ∧
      (∃ e ∈ (move_partition fixPWin fixDWin fixOpts fixEnvOk).1,
        e.phase = .BackingUp ∧ 40 < e.percent) := by
  refine ⟨rfl, by decide, by decide, by decide, by decide⟩

/-! ## Claim C7 -/

/-- Claim C7: on the Linux path, `shrink_partition` delegates to
`shrink_linux`, which enforces its preconditions itself: a mounted
partition is rejected before any driver call (empty trace); otherwise the
forced `e2fsck` is the first driver call, its failure aborts the operation
with only the check in the trace (no `resize2fs` attempted), and on
success the trace is exactly the check immediately followed by the
resize. -/
theorem shrink_linux_enforces_preconditions (p : PartitionInfo)
    (target : Nat) (env : ResizeEnv) :
    (p.is_mounted = true →
      shrink_linux p target env =
        ([], .error "Partition must be unmounted before shrinking")) ∧
    (p.is_mounted = false →
      (shrink_linux p target env).1.head? =
        some (.e2fsck_force p.device_path)) ∧
    (p.is_mounted = false → ∀ e, env.e2fsck_res = .error e →
      shrink_linux p target env =
        ([DriverCall.e2fsck_force p.device_path],
          .error ("Filesystem check failed: " ++ e))) ∧
    (p.is_mounted = false → env.e2fsck_res = .ok () →
      (shrink_linux p target env).1 =
        [DriverCall.e2fsck_force p.device_path,
          DriverCall.resize2fs_shrink p.device_path
            (toString (target / 4096) ++ "s")]) ∧
    shrink_partition p target env = shrink_linux p target env := by
  refine ⟨?_, ?_, ?_, ?_, rfl⟩
  · intro hm
    simp [shrink_linux, hm]
  · intro hm
    simp only [shrink_linux, hm, Bool.false_eq_true, if_false]
    cases env.e2fsck_res
    · simp
    · cases env.resize2fs_res <;> simp
  · intro hm e he
    simp [shrink_linux, hm, he]
  · intro hm he
    simp only [shrink_linux, hm, Bool.false_eq_true, if_false, he]
    cases henv : env.resize2fs_res <;> simp [he, henv]

/-- Claim C7, witness: a mounted partition is rejected with no driver
calls, and an `e2fsck` failure aborts with only the check in the trace. -/
theorem shrink_linux_enforces_preconditions_witness :
    shrink_linux fixPExtMounted (gib 70) fixREnvOk =
        ([], .error "Partition must be unmounted before shrinking") ∧
      shrink_linux fixPExt (gib 70) fixREnvFsckFail =
        ([DriverCall.e2fsck_force "/dev/sda1"],
          .error ("Filesystem check failed: " ++ "bad superblock")) :=
  ⟨(shrink_linux_enforces_preconditions fixPExtMounted (gib 70) fixREnvOk).1
      rfl,
    (shrink_linux_enforces_preconditions fixPExt (gib 70)
      fixREnvFsckFail).2.2.1 rfl "bad superblock" rfl⟩

/-! ## Claim C8 -/

/-- Claim C8, counterexample: when the requested target does not exceed the
current size, `validate_expand` returns early from check 1 and
`maximum_size` stays `none` — it is not computed as
`total_size + adjacent_space`, so clients cannot clamp against it. -/
theorem validate_expand_early_return_no_maximum :
    (validate_expand fixPA fixDA fixPA.total_size).maximum_size = none ∧
      (validate_expand fixPA fixDA fixPA.total_size).maximum_size ≠
        some (fixPA.total_size +
          (validate_expand fixPA fixDA fixPA.total_size).adjacent_space) := by
  decide

/-- Claim C8, amended: for every target strictly larger than the current
size (the targets that survive the early return), `validate_expand` always
returns `maximum_size = (total_size + adjacent_space) mod 2 ^ 64` — the
`u64` sum of the source — whatever the filesystem, mount state or space
situation; the adjacent space returned is `expandAvailable`. -/
theorem validate_expand_maximum_when_target_larger (p : PartitionInfo)
    (d : DiskInfo) (target : Nat) (ht : p.total_size < target) :
    (validate_expand p d target).maximum_size =
        some ((p.total_size + (validate_expand p d target).adjacent_space) %
          u64Mod) ∧
      (validate_expand p d target).adjacent_space = expandAvailable p d := by
  have h1 : ¬ (target ≤ p.total_size) := by omega
  simp only [validate_expand, h1, if_false]
  split_ifs <;> exact ⟨rfl, rfl⟩

/-- Claim C8, witness: at target 450 on `fixPA`/`fixDA` the maximum is
`100 + 390 = 490`. -/
theorem validate_expand_maximum_when_target_larger_witness :
    (validate_expand fixPA fixDA 450).maximum_size =
        some ((fixPA.total_size +
          (validate_expand fixPA fixDA 450).adjacent_space) % u64Mod) ∧
      (validate_expand fixPA fixDA 450).maximum_size = some 490 :=
  ⟨(validate_expand_maximum_when_target_larger fixPA fixDA 450 (by decide)).1,
    by decide⟩

/-! ## Claim C9 -/

/-- Claim C9: the disk-bounds check of `validate_move` computes
`target_offset + partition.total_size` with wrapping `u64` addition.
First conjunct: a concrete input whose true sum exceeds `u64::MAX`
(total size `2^64 - 8`, offset 16) wraps to 8, passes the bounds check and
is reported fully valid.  Second conjunct: whenever the sum does not
overflow, `validate_move` returns the early bounds-failure result exactly
when the sum exceeds `disk.total_size`, and otherwise proceeds to checks
2-5 (so the check rejects exactly the targets extending past the disk
end). -/
theorem validate_move_bounds_wraparound :
    ((2 ^ 64 - 1 : Nat) < 16 + fixPBig.total_size ∧
      (validate_move fixPBig fixDTiny 16).is_valid = true) ∧
    (∀ (p : PartitionInfo) (d : DiskInfo) (t : Nat),
      t + p.total_size < u64Mod →
        ((d.total_size < t + p.total_size →
            validate_move p d t = moveBoundsFailResult d p t ∧
              (moveBoundsFailResult d p t).is_valid = false) ∧
          (t + p.total_size ≤ d.total_size →
            validate_move p d t = moveChecksAfterBounds p d t))) := by
  refine ⟨⟨by decide, by decide⟩, ?_⟩
  intro p d t hwrap
  constructor
  · intro hgt
    rw [validate_move, if_pos (by rw [Nat.mod_eq_of_lt hwrap]; omega)]
    exact ⟨rfl, rfl⟩
  · intro hle
    rw [validate_move, if_neg (by rw [Nat.mod_eq_of_lt hwrap]; omega)]

/-- Claim C9, witness: the overflow-free out-of-bounds move of `fixPW`
(60 bytes to offset 50 on a 100-byte disk) is rejected by the bounds
check. -/
theorem validate_move_bounds_wraparound_witness :
    validate_move fixPW fixDW 50 = moveBoundsFailResult fixDW fixPW 50 ∧
      (moveBoundsFailResult fixDW fixPW 50).is_valid = false :=
  (validate_move_bounds_wraparound.2 fixPW fixDW 50 (by decide)).1 (by decide)

/-! ## Claim C10 -/

/-- Claim C10, counterexample: on a doubly corrupt snapshot — `fixPX` ends
at 200, past the 100-byte disk end, while `fixQFar` starts at 250 —
`find_next_partition` still finds `fixQFar` (it starts at or past the end),
so `adjacent_space = 250 - 200 = 50` and `has_adjacent_space = true`,
contradicting the claim that a partition end beyond the disk end always
yields zero adjacent space. -/
theorem validate_expand_corrupt_snapshot_nonzero_adjacent :
    fixDX.total_size < fixPX.start_offset + fixPX.total_size ∧
      (validate_expand fixPX fixDX 260).adjacent_space = 50 ∧
      (validate_expand fixPX fixDX 260).has_adjacent_space = true := by
  decide

/-- Claim C10, amended: `validate_expand` is total on invariant-violating
snapshots thanks to saturating subtraction; when no partition starts at or
after the partition's end **and** the end lies at or beyond the disk end,
`adjacent_space` saturates to 0, `has_adjacent_space` is `false`, and
every strictly larger target is rejected with the "Not enough adjacent
space" error (available space 0). -/
theorem validate_expand_saturated_no_space (p : PartitionInfo) (d : DiskInfo)
    (target : Nat)
    (hwrap : p.start_offset + p.total_size < u64Mod)
    (hnonext : ∀ q ∈ d.partitions,
      q.start_offset < p.start_offset + p.total_size)
    (hend : d.total_size ≤ p.start_offset + p.total_size)
    (ht : p.total_size < target) :
    (validate_expand p d target).adjacent_space = 0 ∧
      (validate_expand p d target).has_adjacent_space = false ∧
      (validate_expand p d target).is_valid = false ∧
      expandNotEnoughMsg (target - p.total_size) 0 ∈
        (validate_expand p d target).errors := by
  have h1 : ¬ (target ≤ p.total_size) := by omega
  have hnext : find_next_partition d p = none := by
    apply find_next_none_of_all_before
    intro q hq
    rw [Nat.mod_eq_of_lt hwrap]
    exact hnonext q hq
  have hav : expandAvailable p d = 0 := by
    rw [expandAvailable_of_no_next p d hnext hwrap]
    omega
  have hz : (0 : Nat) < target - p.total_size := by omega
  simp only [validate_expand, h1, if_false, hav, if_pos hz]
  split_ifs <;> simp

/-- Claim C10, witness: `fixPX` (ending at 200 on the 100-byte disk
`fixDY`, which has no partition at or past that end) expanded to 260:
adjacent space saturates to 0 and the request is rejected for lack of
adjacent space. -/
theorem validate_expand_saturated_no_space_witness :
    (validate_expand fixPX fixDY 260).adjacent_space = 0 ∧
      (validate_expand fixPX fixDY 260).has_adjacent_space = false ∧
      (validate_expand fixPX fixDY 260).is_valid = false ∧
      expandNotEnoughMsg (260 - fixPX.total_size) 0 ∈
        (validate_expand fixPX fixDY 260).errors :=
  validate_expand_saturated_no_space fixPX fixDY 260 (by decide) (by decide)
    (by decide) (by decide)
